import Mathlib

/-!
Shallow embedding of `src/framework/components/light/component.js`: the
reactive property-binding and mask-composition engine of the light component.

The embedding follows the source file:
* `Value` models the JavaScript values stored in the per-instance `data`
  store; `jsEq` models the `===` comparison used by the generated setters
  (value equality for primitives, reference identity for objects, and
  `NaN === NaN` is `false`); `jsTruthy` models JavaScript boolean coercion.
* `PropName` enumerates the 27 registered property names in registration
  order (`_props`); `defaultValue` gives each property's declared default
  (`_propsDefault`).
* `Light` models the externally owned rendering handle: its mutable `mask`
  field and the log of setter calls it has received.
* `setPropCore` is the accessor installed by `_defineProperty` (read old
  value, `===` short-circuit, store, invoke `setFunc`); `applyHandlerCore`
  transcribes each property's `setFunc` from the source.
* `refreshF` is `refreshProperties` (`this[name] = this[name]` over `_props`
  in order, then the enabled check).  The `type` handler re-enters
  `refreshProperties`, so the recursion is paid for by an explicit fuel
  parameter; exhausting the fuel (impossible in any scenario proved below)
  sets the `stuck` flag.
-/

/-- `pc.MASK_DYNAMIC` (engine constant, bit 0). -/
def MASK_DYNAMIC : Nat := 1

/-- `pc.MASK_BAKED` (engine constant, bit 1). -/
def MASK_BAKED : Nat := 2

/-- `pc.MASK_LIGHTMAP` (engine constant, bit 2). -/
def MASK_LIGHTMAP : Nat := 4

/-- JavaScript `~b` restricted to operands below `2^32`: bitwise complement
within 32 bits, so `m & ~b` is modelled as `m &&& jsNot b`. -/
def jsNot (b : Nat) : Nat := 4294967295 - b

/-- JavaScript values as stored in the component's `data` object.  Reference
types (`pc.Color`, `pc.Texture`, plain objects) carry a reference id `ref`;
a colour additionally carries its channels, which `===` ignores. -/
inductive Value where
  | vUndefined
  | vNull
  | vBool (b : Bool)
  | vNum (q : ℚ)
  | vNaN
  | vStr (s : String)
  | vColor (ref : Nat) (r g b : ℚ)
  | vObj (ref : Nat)
deriving DecidableEq

/-- JavaScript `===`: value equality for primitives, reference identity for
objects, and `NaN` is not equal to anything (including itself). -/
def jsEq : Value → Value → Bool
  | .vNaN, _ => false
  | _, .vNaN => false
  | .vUndefined, .vUndefined => true
  | .vNull, .vNull => true
  | .vBool a, .vBool b => a == b
  | .vNum a, .vNum b => a == b
  | .vStr a, .vStr b => a == b
  | .vColor r1 _ _ _, .vColor r2 _ _ _ => r1 == r2
  | .vObj a, .vObj b => a == b
  | _, _ => false

/-- JavaScript boolean coercion (`if (value)`). -/
def jsTruthy : Value → Bool
  | .vUndefined => false
  | .vNull => false
  | .vBool b => b
  | .vNum q => q != 0
  | .vNaN => false
  | .vStr s => s != ""
  | .vColor _ _ _ _ => true
  | .vObj _ => true

/-- JavaScript `-0.01 * value` as used by the `shadowBias` handler.  Numbers
multiply exactly (modelled in `ℚ`); `null` coerces to `0`, booleans to
`0`/`1`; other operands are modelled as `NaN` (numeric strings, which would
coerce in JavaScript, are not modelled — no claim depends on them). -/
def jsMulNeg001 : Value → Value
  | .vNum q => .vNum (-(1 / 100) * q)
  | .vNull => .vNum 0
  | .vBool b => .vNum (if b then -(1 / 100) else 0)
  | _ => .vNaN

/-- Modelled from the spec: the external `pc.Light#setMask` stores the given
mask on the handle (spec §6 lists `mask (get/set)` on the rendering handle).
The numeric coercion is JavaScript `ToInt32`-style, taking the floor and
reducing modulo `2^32`; non-numbers coerce to `0`.  No claim exercises the
coercion on non-integer input. -/
def valueToMaskNat : Value → Nat
  | .vNum q => ((((q.floor : Int) % 4294967296) + 4294967296) % 4294967296).toNat
  | .vBool b => if b then 1 else 0
  | _ => 0

/-- The 27 registered property names, one constructor per
`_defineProperty` call in the source. -/
inductive PropName where
  | enabled | light | type | color | intensity | castShadows
  | shadowDistance | shadowResolution | shadowBias | normalOffsetBias
  | range | innerConeAngle | outerConeAngle | falloffMode | shadowType
  | vsmBlurSize | vsmBlurMode | vsmBias | cookie | cookieIntensity
  | cookieFalloff | cookieChannel | shadowUpdateMode | mask
  | affectDynamic | affectLightmapped | bake
deriving DecidableEq

/-- `_props`: registration order of the `_defineProperty` calls. -/
def _props : List PropName :=
  [.enabled, .light, .type, .color, .intensity, .castShadows,
   .shadowDistance, .shadowResolution, .shadowBias, .normalOffsetBias,
   .range, .innerConeAngle, .outerConeAngle, .falloffMode, .shadowType,
   .vsmBlurSize, .vsmBlurMode, .vsmBias, .cookie, .cookieIntensity,
   .cookieFalloff, .cookieChannel, .shadowUpdateMode, .mask,
   .affectDynamic, .affectLightmapped, .bake]

/-- `_propsDefault`: each property's declared default value.  Engine
constants are their PlayCanvas numeric values (`LIGHTFALLOFF_LINEAR = 0`,
`SHADOW_DEPTH = 0`, `BLUR_GAUSSIAN = 1`, `SHADOWUPDATE_REALTIME = 2`); the
default colour `new pc.Color(1, 1, 1)` is the module-level object allocated
once at registration time, given reference id `0`.  The fractional defaults
are written as normalized rationals: `Rat.mk' 1 20` is `0.05`
(`shadowBias`) and `Rat.mk' 1 400` is `0.01 * 0.25` (`vsmBias`). -/
def defaultValue : PropName → Value
  | .enabled => .vBool true
  | .light => .vNull
  | .type => .vStr "directional"
  | .color => .vColor 0 1 1 1
  | .intensity => .vNum 1
  | .castShadows => .vBool false
  | .shadowDistance => .vNum 40
  | .shadowResolution => .vNum 1024
  | .shadowBias => .vNum (Rat.mk' 1 20)
  | .normalOffsetBias => .vNum 0
  | .range => .vNum 10
  | .innerConeAngle => .vNum 40
  | .outerConeAngle => .vNum 45
  | .falloffMode => .vNum 0
  | .shadowType => .vNum 0
  | .vsmBlurSize => .vNum 11
  | .vsmBlurMode => .vNum 1
  | .vsmBias => .vNum (Rat.mk' 1 400)
  | .cookie => .vNull
  | .cookieIntensity => .vNum 1
  | .cookieFalloff => .vBool false
  | .cookieChannel => .vStr "rgb"
  | .shadowUpdateMode => .vNum 2
  | .mask => .vNum 1
  | .affectDynamic => .vBool true
  | .affectLightmapped => .vBool false
  | .bake => .vBool false

/-- One call received by the rendering handle, one constructor per handle
setter the source invokes. -/
inductive LightCall where
  | setColor (v : Value)
  | setIntensity (v : Value)
  | setCastShadows (v : Value)
  | setShadowDistance (v : Value)
  | setShadowResolution (v : Value)
  | setShadowBias (v : Value)
  | setNormalOffsetBias (v : Value)
  | setAttenuationEnd (v : Value)
  | setInnerConeAngle (v : Value)
  | setOuterConeAngle (v : Value)
  | setFalloffMode (v : Value)
  | setShadowType (v : Value)
  | setVsmBlurSize (v : Value)
  | setVsmBlurMode (v : Value)
  | setVsmBias (v : Value)
  | setCookie (v : Value)
  | setCookieIntensity (v : Value)
  | setCookieFalloff (v : Value)
  | setCookieChannel (v : Value)
  | setMask (m : Nat)
  | setEnabled (b : Bool)
  | updateShadow
deriving DecidableEq

/-- The externally owned rendering handle (`this.light`): its mutable
integer `mask` field, its `shadowUpdateMode` field (assigned directly by the
`shadowUpdateMode` handler), the enabled state last pushed through
`setEnabled`, and the ordered log of setter calls it has received. -/
structure Light where
  mask : Nat
  shadowUpdateMode : Value
  lenabled : Option Bool
  calls : List LightCall
deriving DecidableEq

/-- Modelled from the spec: a freshly constructed rendering handle "starts
from engine defaults" (§4.2); a new `pc.Light` has `mask = MASK_DYNAMIC`,
realtime shadow updates, and has received no setter calls. -/
def newLight : Light :=
  { mask := MASK_DYNAMIC, shadowUpdateMode := .vNum 2, lenabled := none,
    calls := [] }

/-- One light component instance: the per-instance `data` store, the state
of the rendering handle currently owned (the object referenced by
`this.light`), the owning entity's enabled flag, the count of deprecation
warnings emitted, the ordered log of property handlers (`setFunc`s) that
have run, and a flag marking fuel exhaustion of the embedding (never set in
any scenario below). -/
structure LightComponent where
  data : PropName → Value
  light : Light
  entityEnabled : Bool
  warnings : Nat
  handlerLog : List PropName
  stuck : Bool

/-- Modelled from the spec: construction initializes the store "to each
descriptor's default value" (§3) and installs the rendering handle; the
`LightComponent` constructor in the source is empty and the initialization
lives in the external component system.  No handler fires during
construction. -/
def mkLightComponent (entityEnabled : Bool) : LightComponent :=
  { data := defaultValue, light := newLight, entityEnabled := entityEnabled,
    warnings := 0, handlerLog := [], stuck := false }

/-- `onEnable`: the framework `_super.onEnable` event dispatch (external, no
modelled effect) followed by `this.light.setEnabled(true)`. -/
def onEnable (c : LightComponent) : LightComponent :=
  { c with
    light :=
      { c.light with
        lenabled := some true
        calls := c.light.calls ++ [LightCall.setEnabled true] } }

/-- `onDisable`: the framework `_super.onDisable` event dispatch (external,
no modelled effect) followed by `this.light.setEnabled(false)`. -/
def onDisable (c : LightComponent) : LightComponent :=
  { c with
    light :=
      { c.light with
        lenabled := some false
        calls := c.light.calls ++ [LightCall.setEnabled false] } }

/-- Modelled from the spec: `pc.Component#onSetEnabled` (external framework
code) drives the §4.3 transition — when the owning entity is enabled, a
truthy write enables the handle and a falsy write disables it; when the
entity is disabled nothing propagates. -/
def onSetEnabled (c : LightComponent) (newValue : Value) : LightComponent :=
  if c.entityEnabled then
    (if jsTruthy newValue then onEnable c else onDisable c)
  else c

/-- Modelled from the spec: `system.changeType` (external factory, §4.4)
constructs a new rendering handle for the new type and swaps it in as the
sole owned handle; the old handle is released and the new one starts from
engine defaults. -/
def changeTypeModel (c : LightComponent) : LightComponent :=
  { c with light := newLight }

/-- Record that a property's `setFunc` has been invoked. -/
def logHandler (c : LightComponent) (n : PropName) : LightComponent :=
  { c with handlerLog := c.handlerLog ++ [n] }

/-- A plain handle setter call: appended to the handle's call log. -/
def callLight (c : LightComponent) (call : LightCall) : LightComponent :=
  { c with light := { c.light with calls := c.light.calls ++ [call] } }

/-- `this.light.mask = m; this.light.setMask(m)`: store the mask on the
handle and log the `setMask` call. -/
def lightSetMask (c : LightComponent) (m : Nat) : LightComponent :=
  { c with
    light :=
      { c.light with
        mask := m
        calls := c.light.calls ++ [LightCall.setMask m] } }

/-- The store update `data[name] = value`. -/
def updateData (d : PropName → Value) (n : PropName) (v : Value) :
    PropName → Value :=
  fun m => if m = n then v else d m

/-- Each property's `setFunc` from the source, transcribed clause by clause
in registration order.  `refresh` is the `refreshProperties` continuation
used by the `type` handler (its fuel is supplied by the caller).  The store
has already been updated when a `setFunc` runs, so reads of `this.bake` /
`this.affectLightmapped` see current stored values. -/
def applyHandlerCore (refresh : LightComponent → LightComponent)
    (c0 : LightComponent) (name : PropName) (newValue oldValue : Value) :
    LightComponent :=
  match name with
  | .enabled => onSetEnabled (logHandler c0 .enabled) newValue
  | .light => c0
  | .type =>
      let c := logHandler c0 .type
      if jsEq oldValue newValue then c
      else refresh (changeTypeModel c)
  | .color => callLight (logHandler c0 .color) (.setColor newValue)
  | .intensity => callLight (logHandler c0 .intensity) (.setIntensity newValue)
  | .castShadows =>
      callLight (logHandler c0 .castShadows) (.setCastShadows newValue)
  | .shadowDistance =>
      callLight (logHandler c0 .shadowDistance) (.setShadowDistance newValue)
  | .shadowResolution =>
      callLight (logHandler c0 .shadowResolution) (.setShadowResolution newValue)
  | .shadowBias =>
      callLight (logHandler c0 .shadowBias)
        (.setShadowBias (jsMulNeg001 newValue))
  | .normalOffsetBias =>
      callLight (logHandler c0 .normalOffsetBias) (.setNormalOffsetBias newValue)
  | .range => callLight (logHandler c0 .range) (.setAttenuationEnd newValue)
  | .innerConeAngle =>
      callLight (logHandler c0 .innerConeAngle) (.setInnerConeAngle newValue)
  | .outerConeAngle =>
      callLight (logHandler c0 .outerConeAngle) (.setOuterConeAngle newValue)
  | .falloffMode =>
      callLight (logHandler c0 .falloffMode) (.setFalloffMode newValue)
  | .shadowType =>
      callLight (logHandler c0 .shadowType) (.setShadowType newValue)
  | .vsmBlurSize =>
      callLight (logHandler c0 .vsmBlurSize) (.setVsmBlurSize newValue)
  | .vsmBlurMode =>
      callLight (logHandler c0 .vsmBlurMode) (.setVsmBlurMode newValue)
  | .vsmBias => callLight (logHandler c0 .vsmBias) (.setVsmBias newValue)
  | .cookie => callLight (logHandler c0 .cookie) (.setCookie newValue)
  | .cookieIntensity =>
      callLight (logHandler c0 .cookieIntensity) (.setCookieIntensity newValue)
  | .cookieFalloff =>
      callLight (logHandler c0 .cookieFalloff) (.setCookieFalloff newValue)
  | .cookieChannel =>
      callLight (logHandler c0 .cookieChannel) (.setCookieChannel newValue)
  | .shadowUpdateMode =>
      let c := logHandler c0 .shadowUpdateMode
      { c with light := { c.light with shadowUpdateMode := newValue } }
  | .mask =>
      lightSetMask (logHandler c0 .mask) (valueToMaskNat newValue)
  | .affectDynamic =>
      let c := logHandler c0 .affectDynamic
      let m := if jsTruthy newValue then c.light.mask ||| MASK_DYNAMIC
               else c.light.mask &&& jsNot MASK_DYNAMIC
      lightSetMask c m
  | .affectLightmapped =>
      let c := logHandler c0 .affectLightmapped
      let m0 := c.light.mask
      let m := if jsTruthy newValue then
                 (if jsTruthy (c.data .bake) then
                    (m0 ||| MASK_BAKED) &&& jsNot MASK_LIGHTMAP
                  else m0 ||| MASK_BAKED)
               else
                 (if jsTruthy (c.data .bake) then
                    (m0 &&& jsNot MASK_BAKED) ||| MASK_LIGHTMAP
                  else m0 &&& jsNot MASK_BAKED)
      lightSetMask c m
  | .bake =>
      let c := logHandler c0 .bake
      let m0 := c.light.mask
      let m := if jsTruthy newValue then
                 (if jsTruthy (c.data .affectLightmapped) then
                    (m0 ||| MASK_LIGHTMAP) &&& jsNot MASK_BAKED
                  else m0 ||| MASK_LIGHTMAP)
               else
                 (if jsTruthy (c.data .affectLightmapped) then
                    (m0 &&& jsNot MASK_LIGHTMAP) ||| MASK_BAKED
                  else m0 &&& jsNot MASK_LIGHTMAP)
      lightSetMask c m

/-- The accessor installed by `_defineProperty`: read `oldValue`, return on
`oldValue === value`, otherwise store and invoke the `setFunc`. -/
def setPropCore (refresh : LightComponent → LightComponent)
    (c : LightComponent) (name : PropName) (value : Value) : LightComponent :=
  let oldValue := c.data name
  if jsEq oldValue value then c
  else
    applyHandlerCore refresh
      { c with data := updateData c.data name value } name value oldValue

/-- `refreshProperties` with explicit fuel: `this[name] = this[name]` over
`_props` in registration order (each assignment goes through the installed
accessor), then `if (this.enabled && this.entity.enabled) this.onEnable()`.
Nested re-entry through the `type` handler consumes one unit of fuel. -/
def refreshF : Nat → LightComponent → LightComponent
  | 0, c => { c with stuck := true }
  | fuel + 1, c =>
      let c' := _props.foldl
        (fun acc n => setPropCore (refreshF fuel) acc n (acc.data n)) c
      if jsTruthy (c'.data .enabled) && c'.entityEnabled then onEnable c'
      else c'

/-- Fuel budget for the embedding; no scenario in this file consumes more
than two units. -/
def FUEL : Nat := 3

/-- The public property write `component[name] = value`. -/
def setProp (c : LightComponent) (name : PropName) (value : Value) :
    LightComponent :=
  setPropCore (refreshF FUEL) c name value

/-- The public property read `component[name]`. -/
def getProp (c : LightComponent) (name : PropName) : Value := c.data name

/-- The public `refreshProperties()` operation. -/
def refreshProperties (c : LightComponent) : LightComponent :=
  refreshF (FUEL + 1) c

/-- Reading the deprecated `enable` property: emit a warning, return
`this.enabled`. -/
def getEnable (c : LightComponent) : LightComponent × Value :=
  ({ c with warnings := c.warnings + 1 }, c.data .enabled)

/-- Writing the deprecated `enable` property: emit a warning, forward to
`this.enabled = value`. -/
def setEnable (c : LightComponent) (value : Value) : LightComponent :=
  setProp { c with warnings := c.warnings + 1 } .enabled value

/-- The module-level registry state built by `_defineProperty` calls:
`_props`, `_propsDefault`, and which call's accessor pair is currently
installed on the prototype for each name (`Object.defineProperty` with
`configurable: true` redefines unconditionally). -/
structure Registry where
  props : List String
  propsDefault : List Value
  accessorOwner : String → Option Nat

/-- The registry before any `_defineProperty` call. -/
def emptyRegistry : Registry :=
  { props := [], propsDefault := [], accessorOwner := fun _ => none }

/-- `_defineProperty(name, defaultValue, setFunc)` as a registry transition:
push `name` onto `_props`, push the default onto `_propsDefault`, and
install (or re-install) the accessor pair for `name`, recorded as the index
of the descriptor it forwards to. -/
def _defineProperty (r : Registry) (name : String) (defaultV : Value) :
    Registry :=
  { props := r.props ++ [name],
    propsDefault := r.propsDefault ++ [defaultV],
    accessorOwner := fun n => if n = name then some r.props.length
                              else r.accessorOwner n }

/-- The three flag properties feeding the mask-resolution algorithm. -/
inductive FlagName where
  | aD | aL | bk
deriving DecidableEq

/-- The property each flag names. -/
def flagProp : FlagName → PropName
  | .aD => .affectDynamic
  | .aL => .affectLightmapped
  | .bk => .bake

/-- Apply a sequence of boolean writes to the three flag properties. -/
def applyFlagWrites (ws : List (FlagName × Bool)) (c : LightComponent) :
    LightComponent :=
  ws.foldl (fun acc w => setProp acc (flagProp w.1) (.vBool w.2)) c

/-- The abstraction of a component relevant to the mask algorithm: the
truthiness of the three stored flags and the handle's mask. -/
def absOf (c : LightComponent) : Bool × Bool × Bool × Nat :=
  (jsTruthy (c.data .affectDynamic), jsTruthy (c.data .affectLightmapped),
   jsTruthy (c.data .bake), c.light.mask)

/-- The mask algorithm on the abstract state: the `===` short-circuit
followed by the three handlers' bit operations, exactly as in
`applyHandlerCore`. -/
def aStep : Bool × Bool × Bool × Nat → FlagName × Bool →
    Bool × Bool × Bool × Nat
  | (x, y, z, m), (.aD, b) =>
      if x == b then (x, y, z, m)
      else (b, y, z, if b then m ||| MASK_DYNAMIC
                     else m &&& jsNot MASK_DYNAMIC)
  | (x, y, z, m), (.aL, b) =>
      if y == b then (x, y, z, m)
      else (x, b, z,
        if b then
          (if z then (m ||| MASK_BAKED) &&& jsNot MASK_LIGHTMAP
           else m ||| MASK_BAKED)
        else
          (if z then (m &&& jsNot MASK_BAKED) ||| MASK_LIGHTMAP
           else m &&& jsNot MASK_BAKED))
  | (x, y, z, m), (.bk, b) =>
      if z == b then (x, y, z, m)
      else (x, y, b,
        if b then
          (if y then (m ||| MASK_LIGHTMAP) &&& jsNot MASK_BAKED
           else m ||| MASK_LIGHTMAP)
        else
          (if y then (m &&& jsNot MASK_LIGHTMAP) ||| MASK_BAKED
           else m &&& jsNot MASK_LIGHTMAP))

/-- The mask invariant on the abstract state: the DYNAMIC bit always equals
`affectDynamic`; while `affectLightmapped` and `bake` are not both true, the
BAKED bit equals `affectLightmapped` and the LIGHTMAP bit equals `bake`;
when both are true the two bits are complementary (which one is set depends
on write order); no bits above the low three are ever set. -/
def flagsInvA : Bool × Bool × Bool × Nat → Bool
  | (x, y, z, m) =>
      (m.testBit 0 == x) &&
      (if y && z then m.testBit 1 == !m.testBit 2
       else (m.testBit 1 == y) && (m.testBit 2 == z)) &&
      decide (m < 8)

/-- The mask invariant on a component. -/
def flagsInv (c : LightComponent) : Prop := flagsInvA (absOf c) = true

/-- The three flags are stored as plain booleans (true of every state
reachable by boolean flag writes from a fresh instance). -/
def GoodFlags (c : LightComponent) : Prop :=
  ∃ x y z : Bool, c.data .affectDynamic = .vBool x ∧
    c.data .affectLightmapped = .vBool y ∧ c.data .bake = .vBool z

/-! ## Helper lemmas -/

/-- Oring in a constant whose bit `i` is clear preserves bit `i`. -/
theorem testBit_or_eq {m k i : Nat} (hc : Nat.testBit k i = false) :
    (m ||| k).testBit i = m.testBit i := by
  rw [Nat.testBit_lor, hc, Bool.or_false]

/-- Anding a 32-bit value with a constant whose bits below 32 include bit
`i` preserves bit `i`. -/
theorem testBit_and_eq {m k : Nat} (hm : m < 4294967296) {i : Nat}
    (hc : i < 32 → Nat.testBit k i = true) :
    (m &&& k).testBit i = m.testBit i := by
  rw [Nat.testBit_land]
  cases hb : m.testBit i with
  | false => simp
  | true =>
    have h2 : 2 ^ i ≤ m := Nat.testBit_implies_ge hb
    have hi32 : i < 32 := by
      by_contra hge
      push_neg at hge
      have hp : (2 : Nat) ^ 32 ≤ 2 ^ i := Nat.pow_le_pow_right (by omega) hge
      have : (2 : Nat) ^ 32 = 4294967296 := by norm_num
      omega
    simp [hc hi32]

/-- Bits of `~MASK_DYNAMIC` below 32 other than bit 0 are set. -/
theorem testBit_jsNot_dynamic :
    ∀ i, i < 32 → i ≠ 0 → Nat.testBit (jsNot MASK_DYNAMIC) i = true := by
  decide

/-- Bits of `~MASK_BAKED` below 32 other than bit 1 are set. -/
theorem testBit_jsNot_baked :
    ∀ i, i < 32 → i ≠ 1 → Nat.testBit (jsNot MASK_BAKED) i = true := by
  decide

/-- Bits of `~MASK_LIGHTMAP` below 32 other than bit 2 are set. -/
theorem testBit_jsNot_lightmap :
    ∀ i, i < 32 → i ≠ 2 → Nat.testBit (jsNot MASK_LIGHTMAP) i = true := by
  decide

/-- `MASK_DYNAMIC` only has bit 0. -/
theorem testBit_dynamic_ne {i : Nat} (h : i ≠ 0) :
    Nat.testBit MASK_DYNAMIC i = false := by
  have : MASK_DYNAMIC = 2 ^ 0 := rfl
  rw [this]
  exact Nat.testBit_two_pow_of_ne (fun hc => h hc.symm)

/-- `MASK_BAKED` only has bit 1. -/
theorem testBit_baked_ne {i : Nat} (h : i ≠ 1) :
    Nat.testBit MASK_BAKED i = false := by
  have : MASK_BAKED = 2 ^ 1 := rfl
  rw [this]
  exact Nat.testBit_two_pow_of_ne (fun hc => h hc.symm)

/-- `MASK_LIGHTMAP` only has bit 2. -/
theorem testBit_lightmap_ne {i : Nat} (h : i ≠ 2) :
    Nat.testBit MASK_LIGHTMAP i = false := by
  have : MASK_LIGHTMAP = 2 ^ 2 := rfl
  rw [this]
  exact Nat.testBit_two_pow_of_ne (fun hc => h hc.symm)

/-- Reading the updated slot. -/
theorem updateData_same (d : PropName → Value) (n : PropName) (v : Value) :
    updateData d n v n = v := by
  simp [updateData]

/-- Reading another slot. -/
theorem updateData_other (d : PropName → Value) {n m : PropName} (v : Value)
    (h : m ≠ n) : updateData d n v m = d m := by
  simp [updateData, h]

/-- A truthy value is never `===` to `false`. -/
theorem jsEq_vBool_false_of_truthy {u : Value} (h : jsTruthy u = true) :
    jsEq u (.vBool false) = false := by
  cases u <;> simp_all [jsTruthy, jsEq]

/-! ## Claim theorems -/

/-- C1 (code evaluation): on a fresh instance (all stored values at their
defaults), `refreshProperties()` re-invokes no property handler at all — the
`this[name] = this[name]` writes are all swallowed by the `===`
short-circuit — and the rendering handle receives only the final
`setEnabled(true)` from the enabled check, contradicting the claim that
every handler is re-dispatched exactly once in registration order. -/
theorem c1_refreshProperties_reinvokes_no_handler :
    (refreshProperties (mkLightComponent true)).handlerLog = [] ∧
    (refreshProperties (mkLightComponent true)).light.calls =
      [LightCall.setEnabled true] := by
  constructor <;> decide

/-- C5 (code evaluation): with type `"directional"` and stored range `10`,
setting type to `"point"` runs `changeType` and `refreshProperties`, but the
newly installed handle receives only `setEnabled(true)`: in particular it
never receives `setAttenuationEnd(10)`, so it keeps its engine-default
range, contradicting the claim. -/
theorem c5_type_change_does_not_reapply_range :
    getProp (mkLightComponent true) .range = .vNum 10 ∧
    (setProp (mkLightComponent true) .type (.vStr "point")).light.calls =
      [LightCall.setEnabled true] ∧
    LightCall.setAttenuationEnd (.vNum 10) ∉
      (setProp (mkLightComponent true) .type (.vStr "point")).light.calls ∧
    (setProp (mkLightComponent true) .type (.vStr "point")).data .range =
      .vNum 10 := by
  refine ⟨by decide, by decide, by decide, by decide⟩

/-- C9: a freshly constructed instance stores every registered property's
declared default, and no on-change handler has fired during
construction. -/
theorem c9_fresh_instance_defaults (e : Bool) (p : PropName) :
    getProp (mkLightComponent e) p = defaultValue p ∧
    (mkLightComponent e).handlerLog = [] :=
  ⟨rfl, rfl⟩

/-- C6: a write whose value is `===` to the stored one is a complete no-op
(the component state, including store, handle and handler log, is returned
unchanged); and a distinct-but-channel-equal colour object (different
reference, equal channels) still triggers storage and dispatch. -/
theorem c6_noop_write_and_reference_identity :
    (∀ (c : LightComponent) (n : PropName) (v : Value),
      jsEq (c.data n) v = true → setProp c n v = c) ∧
    ((setProp (mkLightComponent true) .color (.vColor 1 1 1 1)).data .color =
        .vColor 1 1 1 1 ∧
      (setProp (mkLightComponent true) .color (.vColor 1 1 1 1)).handlerLog =
        [PropName.color] ∧
      (setProp (mkLightComponent true) .color (.vColor 1 1 1 1)).light.calls =
        [LightCall.setColor (.vColor 1 1 1 1)]) := by
  constructor
  · intro c n v h
    simp [setProp, setPropCore, h]
  · refine ⟨by decide, by decide, by decide⟩

/-- C6 witness: the no-op branch at a concrete input — rewriting the
default intensity `1` leaves the component untouched. -/
theorem c6_noop_write_witness :
    jsEq ((mkLightComponent true).data .intensity) (.vNum 1) = true ∧
    setProp (mkLightComponent true) .intensity (.vNum 1) =
      mkLightComponent true :=
  ⟨by decide,
   c6_noop_write_and_reference_identity.1 (mkLightComponent true) .intensity
     (.vNum 1) (by decide)⟩

/-- C10: writing a fresh numeric value `q` to `shadowBias` dispatches
`setShadowBias(-0.01 * q)` to the handle while the store keeps the unscaled
`q`. -/
theorem c10_shadowBias_scaled_dispatch (c : LightComponent) (q : ℚ)
    (h : jsEq (c.data .shadowBias) (.vNum q) = false) :
    (setProp c .shadowBias (.vNum q)).light.calls =
      c.light.calls ++ [LightCall.setShadowBias (.vNum (-(1 / 100) * q))] ∧
    (setProp c .shadowBias (.vNum q)).data .shadowBias = .vNum q := by
  simp [setProp, setPropCore, h, applyHandlerCore, jsMulNeg001, callLight,
    logHandler, updateData]

/-- C10 witness: writing `3` over the default `0.05`. -/
theorem c10_shadowBias_scaled_dispatch_witness :
    jsEq ((mkLightComponent true).data .shadowBias) (.vNum 3) = false ∧
    ((setProp (mkLightComponent true) .shadowBias (.vNum 3)).light.calls =
      [LightCall.setShadowBias (.vNum (-(1 / 100) * 3))] ∧
     (setProp (mkLightComponent true) .shadowBias (.vNum 3)).data
       .shadowBias = .vNum 3) :=
  ⟨by decide,
   c10_shadowBias_scaled_dispatch (mkLightComponent true) 3 (by decide)⟩

/-- C8 (counterexample): `_defineProperty` does not detect a duplicate
name — registering `"x"` twice silently appends a second descriptor (the
name appears twice in `_props`) and redefines the accessor pair to forward
to the second descriptor, so the claimed fast failure does not happen. -/
theorem c8_duplicate_registration_counterexample :
    (_defineProperty (_defineProperty emptyRegistry "x" (.vNum 0)) "x"
        (.vNum 1)).props = ["x", "x"] ∧
    (_defineProperty (_defineProperty emptyRegistry "x" (.vNum 0)) "x"
        (.vNum 1)).accessorOwner "x" = some 1 := by
  constructor
  · rfl
  · simp [_defineProperty, emptyRegistry]

/-- C8 (amended): registering a name that is already registered is not
detected: the descriptor is appended a second time (the registry grows) and
the accessor pair is overwritten to forward to the new descriptor. -/
theorem c8_duplicate_registration_amended (r : Registry) (name : String)
    (d : Value) (h : name ∈ r.props) :
    (_defineProperty r name d).props = r.props ++ [name] ∧
    (_defineProperty r name d).props ≠ r.props ∧
    (_defineProperty r name d).accessorOwner name = some r.props.length := by
  refine ⟨rfl, ?_, by simp [_defineProperty]⟩
  intro heq
  have hl := congrArg List.length heq
  simp [_defineProperty] at hl

/-- C8 witness: re-registering `"x"` on a registry that already holds it. -/
theorem c8_duplicate_registration_amended_witness :
    "x" ∈ (_defineProperty emptyRegistry "x" (.vNum 0)).props ∧
    ((_defineProperty (_defineProperty emptyRegistry "x" (.vNum 0)) "x"
        (.vNum 1)).props =
      (_defineProperty emptyRegistry "x" (.vNum 0)).props ++ ["x"] ∧
     (_defineProperty (_defineProperty emptyRegistry "x" (.vNum 0)) "x"
        (.vNum 1)).props ≠ (_defineProperty emptyRegistry "x" (.vNum 0)).props ∧
     (_defineProperty (_defineProperty emptyRegistry "x" (.vNum 0)) "x"
        (.vNum 1)).accessorOwner "x" =
      some (_defineProperty emptyRegistry "x" (.vNum 0)).props.length) :=
  ⟨by decide,
   c8_duplicate_registration_amended (_defineProperty emptyRegistry "x"
     (.vNum 0)) "x" (.vNum 1) (by decide)⟩

/-! ## Mask algorithm: simulation and invariant (C2, C3, C4) -/

/-- A boolean flag write commutes with the abstraction: the concrete setter
acts on the tracked flags and mask exactly as `aStep`. -/
theorem absOf_setProp_flag (c : LightComponent) (h : GoodFlags c)
    (f : FlagName) (b : Bool) :
    absOf (setProp c (flagProp f) (.vBool b)) = aStep (absOf c) (f, b) := by
  obtain ⟨x, y, z, hx, hy, hz⟩ := h
  cases f
  case aD =>
    by_cases hxb : x = b
    · subst hxb
      simp [setProp, setPropCore, flagProp, hx, jsEq, absOf, aStep, jsTruthy]
    · simp [setProp, setPropCore, flagProp, hx, jsEq, hxb, absOf, aStep,
        applyHandlerCore, logHandler, lightSetMask, updateData, jsTruthy,
        hy, hz]
  case aL =>
    by_cases hyb : y = b
    · subst hyb
      simp [setProp, setPropCore, flagProp, hy, jsEq, absOf, aStep, jsTruthy]
    · simp [setProp, setPropCore, flagProp, hx, hy, hz, jsEq, hyb, absOf,
        aStep, applyHandlerCore, logHandler, lightSetMask, updateData,
        jsTruthy]
  case bk =>
    by_cases hzb : z = b
    · subst hzb
      simp [setProp, setPropCore, flagProp, hz, jsEq, absOf, aStep, jsTruthy]
    · simp [setProp, setPropCore, flagProp, hx, hy, hz, jsEq, hzb, absOf,
        aStep, applyHandlerCore, logHandler, lightSetMask, updateData,
        jsTruthy]

/-- Boolean flag writes keep the three flags stored as booleans. -/
theorem GoodFlags_setProp (c : LightComponent) (h : GoodFlags c)
    (f : FlagName) (b : Bool) :
    GoodFlags (setProp c (flagProp f) (.vBool b)) := by
  obtain ⟨x, y, z, hx, hy, hz⟩ := h
  cases f
  case aD =>
    by_cases hxb : x = b
    · subst hxb
      simp only [setProp, setPropCore, flagProp, hx, jsEq, beq_self_eq_true,
        if_true]
      exact ⟨x, y, z, hx, hy, hz⟩
    · refine ⟨b, y, z, ?_, ?_, ?_⟩ <;>
        simp [setProp, setPropCore, flagProp, hx, hy, hz, jsEq, hxb,
          applyHandlerCore, logHandler, lightSetMask, updateData]
  case aL =>
    by_cases hyb : y = b
    · subst hyb
      simp only [setProp, setPropCore, flagProp, hy, jsEq, beq_self_eq_true,
        if_true]
      exact ⟨x, y, z, hx, hy, hz⟩
    · refine ⟨x, b, z, ?_, ?_, ?_⟩ <;>
        simp [setProp, setPropCore, flagProp, hx, hy, hz, jsEq, hyb,
          applyHandlerCore, logHandler, lightSetMask, updateData]
  case bk =>
    by_cases hzb : z = b
    · subst hzb
      simp only [setProp, setPropCore, flagProp, hz, jsEq, beq_self_eq_true,
        if_true]
      exact ⟨x, y, z, hx, hy, hz⟩
    · refine ⟨x, y, b, ?_, ?_, ?_⟩ <;>
        simp [setProp, setPropCore, flagProp, hx, hy, hz, jsEq, hzb,
          applyHandlerCore, logHandler, lightSetMask, updateData]

/-- The abstract step preserves the mask invariant (finite check over the
reachable masks and flag values). -/
theorem flagsInvA_aStep (s : Bool × Bool × Bool × Nat) (w : FlagName × Bool)
    (h : flagsInvA s = true) : flagsInvA (aStep s w) = true := by
  obtain ⟨x, y, z, m⟩ := s
  obtain ⟨f, b⟩ := w
  have hm : m < 8 := by
    have hh := h
    simp [flagsInvA] at hh
    exact hh.2
  revert h
  interval_cases m <;> cases f <;> revert x y z b <;> decide

/-- The invariant holds after any sequence of boolean flag writes from a
state that satisfies it and stores its flags as booleans. -/
theorem flagWrites_inv_aux (ws : List (FlagName × Bool)) :
    ∀ c : LightComponent, GoodFlags c → flagsInvA (absOf c) = true →
      flagsInvA (absOf (applyFlagWrites ws c)) = true := by
  induction ws with
  | nil => intro c _ h; exact h
  | cons w ws ih =>
    intro c hg h
    obtain ⟨f, b⟩ := w
    have h1 : applyFlagWrites ((f, b) :: ws) c =
        applyFlagWrites ws (setProp c (flagProp f) (.vBool b)) := rfl
    rw [h1]
    exact ih _ (GoodFlags_setProp c hg f b)
      (by rw [absOf_setProp_flag c hg f b]; exact flagsInvA_aStep _ _ h)

/-- C2 (counterexample): the BAKED and LIGHTMAP bits are not a pure
function of the stored flags — the two write orders of
`affectLightmapped := true` and `bake := true` reach the same stored flag
values but masks `5` (DYNAMIC+LIGHTMAP) versus `3` (DYNAMIC+BAKED); and a
write to the `mask` property is another path that alters those bits (from
the fresh mask `1` to `7`). -/
theorem c2_mask_not_pure_function_counterexample :
    ((setProp (setProp (mkLightComponent true) .affectLightmapped
        (.vBool true)) .bake (.vBool true)).data .affectDynamic =
      (setProp (setProp (mkLightComponent true) .bake (.vBool true))
        .affectLightmapped (.vBool true)).data .affectDynamic ∧
     (setProp (setProp (mkLightComponent true) .affectLightmapped
        (.vBool true)) .bake (.vBool true)).data .affectLightmapped =
      (setProp (setProp (mkLightComponent true) .bake (.vBool true))
        .affectLightmapped (.vBool true)).data .affectLightmapped ∧
     (setProp (setProp (mkLightComponent true) .affectLightmapped
        (.vBool true)) .bake (.vBool true)).data .bake =
      (setProp (setProp (mkLightComponent true) .bake (.vBool true))
        .affectLightmapped (.vBool true)).data .bake) ∧
    (setProp (setProp (mkLightComponent true) .affectLightmapped
        (.vBool true)) .bake (.vBool true)).light.mask = 5 ∧
    (setProp (setProp (mkLightComponent true) .bake (.vBool true))
        .affectLightmapped (.vBool true)).light.mask = 3 ∧
    (mkLightComponent true).light.mask = 1 ∧
    (setProp (mkLightComponent true) .mask (.vNum 7)).light.mask = 7 := by
  refine ⟨⟨?_, ?_, ?_⟩, ?_, ?_, ?_, ?_⟩ <;> decide

/-- C2 (amended): after any sequence of boolean writes to `affectDynamic`,
`affectLightmapped` and `bake` on a fresh instance, the DYNAMIC bit equals
the stored `affectDynamic`; while `affectLightmapped` and `bake` are not
both true, the BAKED bit equals `affectLightmapped` and the LIGHTMAP bit
equals `bake`; when both are true, the BAKED and LIGHTMAP bits are
complementary — which of the two is set depends on the order of the writes —
and no bits above the low three are ever set by these writes.  (Other
operations, such as writing the `mask` property or replacing the handle on
type change, can still alter those bits.) -/
theorem c2_mask_bits_invariant_amended (e : Bool)
    (ws : List (FlagName × Bool)) :
    flagsInv (applyFlagWrites ws (mkLightComponent e)) :=
  flagWrites_inv_aux ws (mkLightComponent e)
    ⟨true, false, false, rfl, rfl, rfl⟩ (by cases e <;> decide)

/-- C2 witness: the invariant after setting both `affectLightmapped` and
`bake`. -/
theorem c2_mask_bits_invariant_amended_witness :
    flagsInv (applyFlagWrites [(.aL, true), (.bk, true)]
      (mkLightComponent true)) :=
  c2_mask_bits_invariant_amended true [(.aL, true), (.bk, true)]

/-- C3: with `bake` and `affectLightmapped` both truthy, writing `false` to
`affectLightmapped` leaves the mask with BAKED cleared and LIGHTMAP set;
and with `bake` falsy, any write to `affectLightmapped` changes at most the
BAKED bit (every other bit of a 32-bit mask is preserved). -/
theorem c3_affectLightmapped_mask_exclusivity (c : LightComponent) :
    (jsTruthy (c.data .bake) = true →
      jsTruthy (c.data .affectLightmapped) = true →
      ((setProp c .affectLightmapped (.vBool false)).light.mask.testBit 1 =
          false ∧
        (setProp c .affectLightmapped (.vBool false)).light.mask.testBit 2 =
          true)) ∧
    (jsTruthy (c.data .bake) = false → c.light.mask < 4294967296 →
      ∀ (v : Value) (i : Nat), i ≠ 1 →
        (setProp c .affectLightmapped v).light.mask.testBit i =
          c.light.mask.testBit i) := by
  constructor
  · intro hbk hal
    have hne : jsEq (c.data .affectLightmapped) (.vBool false) = false :=
      jsEq_vBool_false_of_truthy hal
    have hbk2 : updateData c.data .affectLightmapped (.vBool false) .bake =
        c.data .bake := updateData_other _ _ (by decide)
    simp only [setProp, setPropCore, hne, Bool.false_eq_true, if_false,
      applyHandlerCore, logHandler, lightSetMask, hbk2, hbk,
      (show jsTruthy (Value.vBool false) = false from rfl), if_true]
    constructor <;>
      simp [Nat.testBit_lor, Nat.testBit_land,
        (by decide : Nat.testBit (jsNot MASK_BAKED) 1 = false),
        (by decide : Nat.testBit MASK_LIGHTMAP 1 = false),
        (by decide : Nat.testBit MASK_LIGHTMAP 2 = true)]
  · intro hbk hm v i hi
    have hbk2 : ∀ w, updateData c.data .affectLightmapped w .bake =
        c.data .bake := fun w => updateData_other _ _ (by decide)
    simp only [setProp, setPropCore]
    split
    · rfl
    · simp only [applyHandlerCore, logHandler, lightSetMask, hbk2, hbk,
        Bool.false_eq_true, if_false]
      split
      · exact testBit_or_eq (testBit_baked_ne hi)
      · exact testBit_and_eq hm (fun h32 => testBit_jsNot_baked i h32 hi)

/-- C3 witness: both branches at concrete inputs — from stored
`affectLightmapped = bake = true`, clearing `affectLightmapped` gives BAKED
clear and LIGHTMAP set; from a fresh instance (`bake` false), setting
`affectLightmapped` leaves the LIGHTMAP bit unchanged. -/
theorem c3_affectLightmapped_mask_exclusivity_witness :
    (jsTruthy ((setProp (setProp (mkLightComponent true) .affectLightmapped
        (.vBool true)) .bake (.vBool true)).data .bake) = true ∧
     jsTruthy ((setProp (setProp (mkLightComponent true) .affectLightmapped
        (.vBool true)) .bake (.vBool true)).data .affectLightmapped) =
       true ∧
     ((setProp (setProp (setProp (mkLightComponent true) .affectLightmapped
          (.vBool true)) .bake (.vBool true)) .affectLightmapped
          (.vBool false)).light.mask.testBit 1 = false ∧
      (setProp (setProp (setProp (mkLightComponent true) .affectLightmapped
          (.vBool true)) .bake (.vBool true)) .affectLightmapped
          (.vBool false)).light.mask.testBit 2 = true)) ∧
    (jsTruthy ((mkLightComponent true).data .bake) = false ∧
     (mkLightComponent true).light.mask < 4294967296 ∧
     (setProp (mkLightComponent true) .affectLightmapped
        (.vBool true)).light.mask.testBit 2 =
       (mkLightComponent true).light.mask.testBit 2) :=
  ⟨⟨by decide, by decide,
    (c3_affectLightmapped_mask_exclusivity (setProp (setProp
      (mkLightComponent true) .affectLightmapped (.vBool true)) .bake
      (.vBool true))).1 (by decide) (by decide)⟩,
   by decide, by decide,
   (c3_affectLightmapped_mask_exclusivity (mkLightComponent true)).2
     (by decide) (by decide) (.vBool true) 2 (by decide)⟩

/-- C4: for every prior component state with a 32-bit mask, writing any
value to `affectDynamic` preserves every mask bit other than DYNAMIC
(bit 0) — in particular the BAKED and LIGHTMAP bits. -/
theorem c4_affectDynamic_preserves_baked_lightmap (c : LightComponent)
    (v : Value) (hm : c.light.mask < 4294967296) (i : Nat) (hi : i ≠ 0) :
    (setProp c .affectDynamic v).light.mask.testBit i =
      c.light.mask.testBit i := by
  simp only [setProp, setPropCore]
  split
  · rfl
  · simp only [applyHandlerCore, logHandler, lightSetMask, updateData]
    split
    · exact testBit_or_eq (testBit_dynamic_ne hi)
    · exact testBit_and_eq hm (fun h32 => testBit_jsNot_dynamic i h32 hi)

/-- C4 witness: clearing `affectDynamic` on a fresh instance leaves the
BAKED bit unchanged. -/
theorem c4_affectDynamic_preserves_baked_lightmap_witness :
    (mkLightComponent true).light.mask < 4294967296 ∧ (1 : Nat) ≠ 0 ∧
    (setProp (mkLightComponent true) .affectDynamic
        (.vBool false)).light.mask.testBit 1 =
      (mkLightComponent true).light.mask.testBit 1 :=
  ⟨by decide, by decide,
   c4_affectDynamic_preserves_baked_lightmap (mkLightComponent true)
     (.vBool false) (by decide) 1 (by decide)⟩

/-- C7: writing `false` through the deprecated `enable` alias reaches the
same end state as writing `false` to `enabled` directly (same store, same
handle state, same handler log), with exactly one extra warning; the stored
`enabled` becomes `false` and the handle is disabled; reading `enable`
emits one warning and returns the stored `enabled`. -/
theorem c7_enable_alias_matches_enabled (c : LightComponent)
    (h1 : c.data .enabled = .vBool true) (h2 : c.entityEnabled = true) :
    (∀ p, (setEnable c (.vBool false)).data p =
       (setProp c .enabled (.vBool false)).data p) ∧
    (setEnable c (.vBool false)).light =
      (setProp c .enabled (.vBool false)).light ∧
    (setEnable c (.vBool false)).handlerLog =
      (setProp c .enabled (.vBool false)).handlerLog ∧
    (setEnable c (.vBool false)).warnings = c.warnings + 1 ∧
    (setProp c .enabled (.vBool false)).warnings = c.warnings ∧
    (setEnable c (.vBool false)).data .enabled = .vBool false ∧
    (setEnable c (.vBool false)).light.lenabled = some false ∧
    (getEnable c).1.warnings = c.warnings + 1 ∧
    (getEnable c).2 = c.data .enabled := by
  refine ⟨?_, ?_, ?_, ?_, ?_, ?_, ?_, rfl, rfl⟩ <;>
    simp [setEnable, setProp, setPropCore, h1, h2, jsEq, applyHandlerCore,
      onSetEnabled, jsTruthy, onDisable, logHandler, updateData, getEnable]

/-- C7 witness: the alias write on a fresh instance. -/
theorem c7_enable_alias_matches_enabled_witness :
    (mkLightComponent true).data .enabled = .vBool true ∧
    (mkLightComponent true).entityEnabled = true ∧
    (setEnable (mkLightComponent true) (.vBool false)).warnings =
      (mkLightComponent true).warnings + 1 ∧
    (setEnable (mkLightComponent true) (.vBool false)).data .enabled =
      .vBool false ∧
    (setEnable (mkLightComponent true) (.vBool false)).light.lenabled =
      some false :=
  ⟨rfl, rfl,
   (c7_enable_alias_matches_enabled (mkLightComponent true) rfl
     rfl).2.2.2.1,
   (c7_enable_alias_matches_enabled (mkLightComponent true) rfl
     rfl).2.2.2.2.2.1,
   (c7_enable_alias_matches_enabled (mkLightComponent true) rfl
     rfl).2.2.2.2.2.2.1⟩
